import Mathlib

/-
Verification of the voice-agent bootstrap module (src/voice-agent/agent.ts).

The module defines a single asynchronous entry function that, given a job
context, (1) awaits a room connection, (2) constructs an agent descriptor
with fixed instructions, (3) constructs a session wired to an STT provider,
an LLM provider with a fixed model identifier, and a TTS provider, (4)
awaits the session start bound to the agent and the room of the context,
and (5) issues a fire-and-forget greeting utterance.  A module-level guard
runs the CLI bootstrap only when the file is the main program.

The embedding records every interaction with the external framework as an
event in a trace.  An environment of Boolean failure flags says, for each
awaited or throwing step, whether the external dependency fails there; the
entry function stops at the first failing step and reports an error, since
the source contains no local error handling.
-/

namespace VoiceAgent

/-- The room handle held by a job context (ctx.room in the source). -/
structure Room where
  name : String
deriving DecidableEq, Repr

/-- The job context supplied by the framework (ctx : JobContext in the
source).  Besides the room it carries opaque framework data, modelled as a
string, which the entry function never inspects. -/
structure JobContext where
  room : Room
  meta : String
deriving DecidableEq, Repr

/-- The agent descriptor built by new voice.Agent with an instructions
string. -/
structure Agent where
  instructions : String
deriving DecidableEq, Repr

/-- Options of the LLM provider: the source passes a model field. -/
structure LLMOptions where
  model : String
deriving DecidableEq, Repr

/-- STT provider handle; the source constructs it with no options, which
the embedding records as none. -/
structure STT where
  options : Option Unit
deriving DecidableEq, Repr

/-- LLM provider handle, parameterized by its options. -/
structure LLM where
  options : LLMOptions
deriving DecidableEq, Repr

/-- TTS provider handle; the source constructs it with no options, which
the embedding records as none. -/
structure TTS where
  options : Option Unit
deriving DecidableEq, Repr

/-- The record passed to new voice.AgentSession: one STT, one LLM and one
TTS provider reference. -/
structure SessionOptions where
  stt : STT
  llm : LLM
  tts : TTS
deriving DecidableEq, Repr

/-- One interaction of the entry function with the external framework, in
the order the source issues them. -/
inductive Event where
  | connect
  | agentCtor (instructions : String)
  | sttCtor (options : Option Unit)
  | llmCtor (options : LLMOptions)
  | ttsCtor (options : Option Unit)
  | sessionCtor (options : SessionOptions)
  | sessionStart (agent : Agent) (room : Room)
  | say (text : String)
deriving DecidableEq, Repr

/-- The step at which an external failure can be raised. -/
inductive Step where
  | connectCall
  | agentNew
  | sttNew
  | llmNew
  | ttsNew
  | sessionNew
  | startCall
deriving DecidableEq, Repr

/-- Result of one run of the entry function: normal return, or an
exception raised at a step and propagated out (the source has no catch). -/
inductive Outcome where
  | ok
  | error (s : Step)
deriving DecidableEq, Repr

/-- Behaviour of the external dependencies during one run: for each
awaited or throwing call, whether it fails.  The last flag describes the
asynchronous fate of the greeting utterance after the say call returns its
handle; the source never awaits it. -/
structure Env where
  connectFails : Bool
  agentCtorFails : Bool
  sttCtorFails : Bool
  llmCtorFails : Bool
  ttsCtorFails : Bool
  sessionCtorFails : Bool
  startFails : Bool
  sayAsyncFails : Bool
deriving DecidableEq, Repr

/-- The environment in which every external call succeeds. -/
def envOk : Env :=
  ⟨false, false, false, false, false, false, false, false⟩

/-- The literal instructions string of the source. -/
def instructionsLit : String :=
  "You are a helpful voice assistant. Keep responses concise."

/-- The literal model identifier of the source. -/
def modelLit : String := "gpt-4"

/-- The literal greeting text of the source. -/
def greetingLit : String := "Hello! How can I help you today?"

/-- The entry function of the agent definition, as a trace of framework
interactions plus an outcome.  It follows the source line by line:
await ctx.connect(); new voice.Agent; new openai.STT, new openai.LLM,
new elevenlabs.TTS evaluated in the order of the object literal feeding
new voice.AgentSession; await session.start with the agent and ctx.room;
session.say with the greeting, not awaited.  The first failing call ends
the run with an error that propagates out. -/
def entry (env : Env) (ctx : JobContext) : List Event × Outcome :=
  if env.connectFails then
    ([Event.connect], Outcome.error Step.connectCall)
  else if env.agentCtorFails then
    ([Event.connect, Event.agentCtor instructionsLit],
      Outcome.error Step.agentNew)
  else if env.sttCtorFails then
    ([Event.connect, Event.agentCtor instructionsLit, Event.sttCtor none],
      Outcome.error Step.sttNew)
  else if env.llmCtorFails then
    ([Event.connect, Event.agentCtor instructionsLit, Event.sttCtor none,
      Event.llmCtor ⟨modelLit⟩],
      Outcome.error Step.llmNew)
  else if env.ttsCtorFails then
    ([Event.connect, Event.agentCtor instructionsLit, Event.sttCtor none,
      Event.llmCtor ⟨modelLit⟩, Event.ttsCtor none],
      Outcome.error Step.ttsNew)
  else if env.sessionCtorFails then
    ([Event.connect, Event.agentCtor instructionsLit, Event.sttCtor none,
      Event.llmCtor ⟨modelLit⟩, Event.ttsCtor none,
      Event.sessionCtor ⟨⟨none⟩, ⟨⟨modelLit⟩⟩, ⟨none⟩⟩],
      Outcome.error Step.sessionNew)
  else if env.startFails then
    ([Event.connect, Event.agentCtor instructionsLit, Event.sttCtor none,
      Event.llmCtor ⟨modelLit⟩, Event.ttsCtor none,
      Event.sessionCtor ⟨⟨none⟩, ⟨⟨modelLit⟩⟩, ⟨none⟩⟩,
      Event.sessionStart ⟨instructionsLit⟩ ctx.room],
      Outcome.error Step.startCall)
  else
    ([Event.connect, Event.agentCtor instructionsLit, Event.sttCtor none,
      Event.llmCtor ⟨modelLit⟩, Event.ttsCtor none,
      Event.sessionCtor ⟨⟨none⟩, ⟨⟨modelLit⟩⟩, ⟨none⟩⟩,
      Event.sessionStart ⟨instructionsLit⟩ ctx.room,
      Event.say greetingLit],
      Outcome.ok)

/-- The complete trace of a fully successful run: the five bootstrap
steps of the source in order, with step 3 split into its three provider
constructions followed by the session construction. -/
def fullTrace (ctx : JobContext) : List Event :=
  [Event.connect, Event.agentCtor instructionsLit, Event.sttCtor none,
   Event.llmCtor ⟨modelLit⟩, Event.ttsCtor none,
   Event.sessionCtor ⟨⟨none⟩, ⟨⟨modelLit⟩⟩, ⟨none⟩⟩,
   Event.sessionStart ⟨instructionsLit⟩ ctx.room,
   Event.say greetingLit]

/-- How many events of the full trace a run under env issues before it
stops (8 when nothing fails). -/
def stepCount (env : Env) : Nat :=
  if env.connectFails then 1
  else if env.agentCtorFails then 2
  else if env.sttCtorFails then 3
  else if env.llmCtorFails then 4
  else if env.ttsCtorFails then 5
  else if env.sessionCtorFails then 6
  else if env.startFails then 7
  else 8

/-- The outcome of a run under env. -/
def outcomeOf (env : Env) : Outcome :=
  if env.connectFails then Outcome.error Step.connectCall
  else if env.agentCtorFails then Outcome.error Step.agentNew
  else if env.sttCtorFails then Outcome.error Step.sttNew
  else if env.llmCtorFails then Outcome.error Step.llmNew
  else if env.ttsCtorFails then Outcome.error Step.ttsNew
  else if env.sessionCtorFails then Outcome.error Step.sessionNew
  else if env.startFails then Outcome.error Step.startCall
  else Outcome.ok

/-- The failure flag of the environment that governs a given step. -/
def stepFails (env : Env) : Step → Bool
  | Step.connectCall => env.connectFails
  | Step.agentNew => env.agentCtorFails
  | Step.sttNew => env.sttCtorFails
  | Step.llmNew => env.llmCtorFails
  | Step.ttsNew => env.ttsCtorFails
  | Step.sessionNew => env.sessionCtorFails
  | Step.startCall => env.startFails

/-- The number of events of the full trace issued up to and including the
call of a given step: a run whose trace has at most this many events has
performed nothing after that step. -/
def stepIndex : Step → Nat
  | Step.connectCall => 1
  | Step.agentNew => 2
  | Step.sttNew => 3
  | Step.llmNew => 4
  | Step.ttsNew => 5
  | Step.sessionNew => 6
  | Step.startCall => 7

/-- Every run issues a prefix of the full trace, cut at the first failing
step, and reports the outcome of that step. -/
theorem entry_eq (env : Env) (ctx : JobContext) :
    entry env ctx = ((fullTrace ctx).take (stepCount env), outcomeOf env) := by
  obtain ⟨c, a, s, l, t, se, st, sy⟩ := env
  cases c <;> cases a <;> cases s <;> cases l <;> cases t <;> cases se <;>
    cases st <;> rfl

/-- True of an event exactly when it is the session construction. -/
def isSessionCtor : Event → Bool
  | Event.sessionCtor _ => true
  | _ => false

/-- True of an event exactly when it is the connect call. -/
def isConnect : Event → Bool
  | Event.connect => true
  | _ => false

/-- True of an event exactly when it is the say call with the greeting
text of the source. -/
def isGreetingSay : Event → Bool
  | Event.say t => t == greetingLit
  | _ => false

/-- All calls of a run succeed exactly when no awaited or throwing step
is flagged as failing; the asynchronous fate of the greeting is not part
of the run. -/
def noSyncFailure (env : Env) : Bool :=
  !env.connectFails && !env.agentCtorFails && !env.sttCtorFails &&
  !env.llmCtorFails && !env.ttsCtorFails && !env.sessionCtorFails &&
  !env.startFails

/-- The instructions strings the run passes to agent construction. -/
def configuredInstructions (tr : List Event) : List String :=
  tr.filterMap fun e =>
    match e with
    | Event.agentCtor i => some i
    | _ => none

/-- The model identifiers the run passes to LLM construction. -/
def configuredModels (tr : List Event) : List String :=
  tr.filterMap fun e =>
    match e with
    | Event.llmCtor o => some o.model
    | _ => none

/-- The texts the run passes to the say call. -/
def configuredGreetings (tr : List Event) : List String :=
  tr.filterMap fun e =>
    match e with
    | Event.say t => some t
    | _ => none

/-
Module-level CLI bootstrap guard.  JavaScript strings are modelled as
lists of characters.  The source compares import.meta.url against the
template literal prepending the file scheme to process.argv[1], and the
Node utility fileURLToPath is modelled as stripping that scheme.
-/

/-- The characters of the file scheme used by the guard of the source. -/
def fileScheme : List Char := ['f', 'i', 'l', 'e', ':', '/', '/']

/-- The module-level guard of the source: import.meta.url compared for
equality against the file scheme followed by process.argv[1]. -/
def guardRuns (importMetaUrl argv1 : List Char) : Bool :=
  importMetaUrl == fileScheme ++ argv1

/-- Model of the Node utility used at the bottom of the source file: a
file URL is converted to a path by stripping the file scheme; a string
not carrying the scheme is not a file URL. -/
def fileURLToPath (url : List Char) : Option (List Char) :=
  if url.take 7 = fileScheme then some (url.drop 7) else none

/-- Modelled from the spec: the module is the designated entry file of
the program when the path resolved from its own module URL is the path
the process was started with (process.argv[1]). -/
def isDesignatedEntryFile (importMetaUrl argv1 : List Char) : Bool :=
  fileURLToPath importMetaUrl == some argv1

/-- A run that returns normally ran every step, so its trace is the full
bootstrap sequence. -/
theorem trace_eq_full_of_ok (env : Env) (ctx : JobContext)
    (h : (entry env ctx).2 = Outcome.ok) :
    (entry env ctx).1 = fullTrace ctx := by
  obtain ⟨c, a, s, l, t, se, st, sy⟩ := env
  cases c <;> cases a <;> cases s <;> cases l <;> cases t <;> cases se <;>
    cases st <;> simp_all [entry, fullTrace]

/-- If the greeting was said, the run succeeded end to end and the start
call did not fail. -/
theorem ok_of_say_mem (env : Env) (ctx : JobContext)
    (h : Event.say greetingLit ∈ (entry env ctx).1) :
    (entry env ctx).2 = Outcome.ok ∧ env.startFails = false := by
  obtain ⟨c, a, s, l, t, se, st, sy⟩ := env
  cases c <;> cases a <;> cases s <;> cases l <;> cases t <;> cases se <;>
    cases st <;> simp_all [entry]

/-- C1: every run of the entry function follows the five-step bootstrap
sequence of the source in strict order — its trace is a prefix of the
fixed ordered sequence connect, agent construction, provider
constructions, session construction, session start, greeting, so the
session is never started before the context is connected and all
providers are constructed before the session is constructed — and in the
environment where every external call succeeds the run performs exactly
the full sequence. -/
theorem c1_bootstrap_sequence (ctx : JobContext) :
    (entry envOk ctx).1 = fullTrace ctx ∧
    ∀ env : Env, ∃ n : Nat, (entry env ctx).1 = (fullTrace ctx).take n := by
  refine ⟨rfl, fun env => ⟨stepCount env, ?_⟩⟩
  rw [entry_eq]

/-- C2: in every successful run, the agent is constructed with the
literal instructions string, the session start is called with exactly
that constructed agent and the room of the context, and say is called
with the literal greeting text. -/
theorem c2_success_literals (env : Env) (ctx : JobContext)
    (h : (entry env ctx).2 = Outcome.ok) :
    Event.agentCtor "You are a helpful voice assistant. Keep responses concise."
        ∈ (entry env ctx).1 ∧
    Event.sessionStart ⟨"You are a helpful voice assistant. Keep responses concise."⟩
        ctx.room ∈ (entry env ctx).1 ∧
    Event.say "Hello! How can I help you today?" ∈ (entry env ctx).1 := by
  rw [trace_eq_full_of_ok env ctx h]
  simp [fullTrace, instructionsLit, greetingLit]

theorem c2_success_literals_witness :
    Event.say "Hello! How can I help you today?"
      ∈ (entry envOk ⟨⟨"demo-room"⟩, "demo"⟩).1 :=
  (c2_success_literals envOk ⟨⟨"demo-room"⟩, "demo"⟩ rfl).2.2

/-- C5: every run invokes the connect call exactly once, as its very
first framework interaction, and any session construction happens
strictly after it. -/
theorem c5_connect_once_first (env : Env) (ctx : JobContext) :
    (entry env ctx).1.countP isConnect = 1 ∧
    (entry env ctx).1.head? = some Event.connect ∧
    ∀ opts : SessionOptions, Event.sessionCtor opts ∈ (entry env ctx).1 →
      ∃ rest : List Event, (entry env ctx).1 = Event.connect :: rest ∧
        Event.sessionCtor opts ∈ rest := by
  obtain ⟨c, a, s, l, t, se, st, sy⟩ := env
  cases c <;> cases a <;> cases s <;> cases l <;> cases t <;> cases se <;>
    cases st <;>
    exact ⟨by simp [entry, isConnect], rfl, fun opts h =>
      ⟨_, rfl, by
        first
        | (simp [entry] at h ⊢; exact h)
        | simp [entry] at h⟩⟩

theorem c5_connect_once_first_witness :
    ∃ rest : List Event,
      (entry envOk ⟨⟨"demo-room"⟩, "demo"⟩).1 = Event.connect :: rest ∧
        Event.sessionCtor ⟨⟨none⟩, ⟨⟨"gpt-4"⟩⟩, ⟨none⟩⟩ ∈ rest :=
  (c5_connect_once_first envOk ⟨⟨"demo-room"⟩, "demo"⟩).2.2
    ⟨⟨none⟩, ⟨⟨"gpt-4"⟩⟩, ⟨none⟩⟩ (by decide)

/-- C7: the entry function handles nothing locally — a run returns
normally exactly when no awaited or throwing call fails, and any failure
makes the whole run report that failure; in particular a connect failure
surfaces as the error of the connect step. -/
theorem c7_failures_propagate (env : Env) (ctx : JobContext) :
    ((entry env ctx).2 = Outcome.ok ↔ noSyncFailure env = true) ∧
    (env.connectFails = true →
      (entry env ctx).2 = Outcome.error Step.connectCall) ∧
    (env.startFails = true → (entry env ctx).2 ≠ Outcome.ok) := by
  obtain ⟨c, a, s, l, t, se, st, sy⟩ := env
  cases c <;> cases a <;> cases s <;> cases l <;> cases t <;> cases se <;>
    cases st <;> simp [entry, noSyncFailure]

theorem c7_failures_propagate_witness :
    (entry ⟨true, false, false, false, false, false, false, false⟩
        ⟨⟨"demo-room"⟩, "demo"⟩).2 = Outcome.error Step.connectCall :=
  (c7_failures_propagate ⟨true, false, false, false, false, false, false, false⟩
    ⟨⟨"demo-room"⟩, "demo"⟩).2.1 rfl

/-- A run in which a given step fails — whether that step is reached or
an earlier one already failed — never gets past that step. -/
theorem stepCount_le_of_fails (env : Env) (s : Step)
    (h : stepFails env s = true) : stepCount env ≤ stepIndex s := by
  obtain ⟨c, a, ss, l, t, se, st, sy⟩ := env
  cases s <;> simp only [stepFails] at h <;> subst h <;>
    simp only [stepIndex, stepCount] <;> split_ifs <;> omega

/-- C8: if any step of the run fails, none of the later steps are
performed — the trace is cut at or before the event of the failing step;
in particular a failed connect leaves a trace holding nothing but the
connect call, so no agent, session or utterance is created, and a failed
session start means the greeting is never said. -/
theorem c8_failure_stops_later_steps (env : Env) (ctx : JobContext) :
    (∀ s : Step, stepFails env s = true →
      ∃ n : Nat, n ≤ stepIndex s ∧
        (entry env ctx).1 = (fullTrace ctx).take n) ∧
    (env.connectFails = true → (entry env ctx).1 = [Event.connect]) ∧
    (env.startFails = true →
      Event.say greetingLit ∉ (entry env ctx).1) := by
  refine ⟨fun s h =>
    ⟨stepCount env, stepCount_le_of_fails env s h, by rw [entry_eq]⟩, ?_, ?_⟩ <;>
  · obtain ⟨c, a, ss, l, t, se, st, sy⟩ := env
    cases c <;> cases a <;> cases ss <;> cases l <;> cases t <;> cases se <;>
      cases st <;> simp [entry]

theorem c8_failure_stops_later_steps_witness :
    (∃ n : Nat, n ≤ stepIndex Step.llmNew ∧
      (entry ⟨false, false, false, true, false, false, false, false⟩
          ⟨⟨"demo-room"⟩, "demo"⟩).1
        = (fullTrace ⟨⟨"demo-room"⟩, "demo"⟩).take n) ∧
    (entry ⟨true, false, false, false, false, false, false, false⟩
        ⟨⟨"demo-room"⟩, "demo"⟩).1 = [Event.connect] ∧
    Event.say greetingLit ∉
      (entry ⟨false, false, false, false, false, false, true, false⟩
        ⟨⟨"demo-room"⟩, "demo"⟩).1 :=
  ⟨(c8_failure_stops_later_steps
      ⟨false, false, false, true, false, false, false, false⟩
      ⟨⟨"demo-room"⟩, "demo"⟩).1 Step.llmNew rfl,
   (c8_failure_stops_later_steps
      ⟨true, false, false, false, false, false, false, false⟩
      ⟨⟨"demo-room"⟩, "demo"⟩).2.1 rfl,
   (c8_failure_stops_later_steps
      ⟨false, false, false, false, false, false, true, false⟩
      ⟨⟨"demo-room"⟩, "demo"⟩).2.2 rfl⟩

/-- C9: the greeting is fire-and-forget — the run is entirely
independent of the asynchronous fate of the utterance after the say call
is issued, the say handle does not appear in the result of the entry
function, and once the say call is issued the run returns normally. -/
theorem c9_say_not_awaited (c a s l t se st b₁ b₂ : Bool)
    (ctx : JobContext) :
    entry ⟨c, a, s, l, t, se, st, b₁⟩ ctx
        = entry ⟨c, a, s, l, t, se, st, b₂⟩ ctx ∧
    (entry ⟨false, false, false, false, false, false, false, b₁⟩ ctx).2
        = Outcome.ok :=
  ⟨rfl, rfl⟩

/-- C3: whenever a run constructs the session, the options record holds
exactly one STT reference built with no options, one LLM reference built
with the fixed model identifier, and one TTS reference built with no
options; the session is constructed at most once, and exactly once in a
run that returns normally. -/
theorem c3_session_provider_wiring (env : Env) (ctx : JobContext) :
    (∀ opts : SessionOptions, Event.sessionCtor opts ∈ (entry env ctx).1 →
      opts = ⟨⟨none⟩, ⟨⟨"gpt-4"⟩⟩, ⟨none⟩⟩) ∧
    (entry env ctx).1.countP isSessionCtor ≤ 1 ∧
    ((entry env ctx).2 = Outcome.ok →
      (entry env ctx).1.countP isSessionCtor = 1) := by
  obtain ⟨c, a, s, l, t, se, st, sy⟩ := env
  cases c <;> cases a <;> cases s <;> cases l <;> cases t <;> cases se <;>
    cases st <;>
    refine ⟨fun opts h => ?_, by simp [entry, isSessionCtor], ?_⟩ <;>
    simp_all [entry, isSessionCtor, modelLit]

theorem c3_session_provider_wiring_witness :
    ((⟨⟨none⟩, ⟨⟨"gpt-4"⟩⟩, ⟨none⟩⟩ : SessionOptions)
        = ⟨⟨none⟩, ⟨⟨"gpt-4"⟩⟩, ⟨none⟩⟩) ∧
    (entry envOk ⟨⟨"demo-room"⟩, "demo"⟩).1.countP isSessionCtor = 1 :=
  ⟨(c3_session_provider_wiring envOk ⟨⟨"demo-room"⟩, "demo"⟩).1
      ⟨⟨none⟩, ⟨⟨"gpt-4"⟩⟩, ⟨none⟩⟩ (by decide),
   (c3_session_provider_wiring envOk ⟨⟨"demo-room"⟩, "demo"⟩).2.2 rfl⟩

/-- C4: no run says the greeting more than once, a run that returns
normally says it exactly once, and whenever the greeting is said the
start call did not fail and the say call is the last interaction of the
run, strictly after the session start bound to the agent and the room of
the context. -/
theorem c4_greeting_once_after_start (env : Env) (ctx : JobContext) :
    (entry env ctx).1.countP isGreetingSay ≤ 1 ∧
    ((entry env ctx).2 = Outcome.ok →
      (entry env ctx).1.countP isGreetingSay = 1) ∧
    (Event.say greetingLit ∈ (entry env ctx).1 →
      env.startFails = false ∧
      ∃ pre : List Event, (entry env ctx).1 = pre ++ [Event.say greetingLit] ∧
        Event.sessionStart ⟨instructionsLit⟩ ctx.room ∈ pre) := by
  refine ⟨?_, ?_, fun h => ⟨(ok_of_say_mem env ctx h).2, ?_⟩⟩
  · obtain ⟨c, a, s, l, t, se, st, sy⟩ := env
    cases c <;> cases a <;> cases s <;> cases l <;> cases t <;> cases se <;>
      cases st <;> simp [entry, isGreetingSay]
  · intro h
    rw [trace_eq_full_of_ok env ctx h]
    simp [fullTrace, isGreetingSay]
  · rw [trace_eq_full_of_ok env ctx (ok_of_say_mem env ctx h).1]
    exact ⟨[Event.connect, Event.agentCtor instructionsLit,
      Event.sttCtor none, Event.llmCtor ⟨modelLit⟩, Event.ttsCtor none,
      Event.sessionCtor ⟨⟨none⟩, ⟨⟨modelLit⟩⟩, ⟨none⟩⟩,
      Event.sessionStart ⟨instructionsLit⟩ ctx.room], rfl, by simp⟩

theorem c4_greeting_once_after_start_witness :
    (entry envOk ⟨⟨"demo-room"⟩, "demo"⟩).1.countP isGreetingSay = 1 ∧
    ∃ pre : List Event,
      (entry envOk ⟨⟨"demo-room"⟩, "demo"⟩).1 = pre ++ [Event.say greetingLit] ∧
      Event.sessionStart ⟨instructionsLit⟩ ⟨"demo-room"⟩ ∈ pre :=
  ⟨(c4_greeting_once_after_start envOk ⟨⟨"demo-room"⟩, "demo"⟩).2.1 rfl,
   ((c4_greeting_once_after_start envOk ⟨⟨"demo-room"⟩, "demo"⟩).2.2
      (by decide)).2⟩

/-- C10: the configuration constants are compile-time literals into
which no information flows from the job context — for any two contexts
the instructions, models and greeting texts issued by the runs coincide,
and each of them is the corresponding literal of the source. -/
theorem c10_constants_context_independent (env : Env)
    (ctx₁ ctx₂ : JobContext) :
    configuredInstructions (entry env ctx₁).1
        = configuredInstructions (entry env ctx₂).1 ∧
    configuredModels (entry env ctx₁).1
        = configuredModels (entry env ctx₂).1 ∧
    configuredGreetings (entry env ctx₁).1
        = configuredGreetings (entry env ctx₂).1 ∧
    (∀ s ∈ configuredInstructions (entry env ctx₁).1,
      s = "You are a helpful voice assistant. Keep responses concise.") ∧
    (∀ s ∈ configuredModels (entry env ctx₁).1, s = "gpt-4") ∧
    (∀ s ∈ configuredGreetings (entry env ctx₁).1,
      s = "Hello! How can I help you today?") := by
  obtain ⟨c, a, s, l, t, se, st, sy⟩ := env
  cases c <;> cases a <;> cases s <;> cases l <;> cases t <;> cases se <;>
    cases st <;>
    exact ⟨rfl, rfl, rfl,
      by simp [entry, configuredInstructions, instructionsLit],
      by simp [entry, configuredModels, modelLit],
      by simp [entry, configuredGreetings, greetingLit]⟩

theorem c10_constants_context_independent_witness :
    configuredGreetings (entry envOk ⟨⟨"alpha"⟩, "a"⟩).1
        = configuredGreetings (entry envOk ⟨⟨"beta"⟩, "b"⟩).1 ∧
    "gpt-4" = "gpt-4" :=
  ⟨(c10_constants_context_independent envOk ⟨⟨"alpha"⟩, "a"⟩
      ⟨⟨"beta"⟩, "b"⟩).2.2.1,
   (c10_constants_context_independent envOk ⟨⟨"alpha"⟩, "a"⟩
      ⟨⟨"beta"⟩, "b"⟩).2.2.2.2.1 "gpt-4" (by decide)⟩

/-- C6: the CLI bootstrap guard of the source fires exactly when the
module is the designated entry file of the program — the comparison of
the module URL against the file scheme followed by process.argv[1]
succeeds precisely when the path resolved from the module URL is
process.argv[1]; in particular the guard never fires when the module is
imported by another entry file. -/
theorem c6_cli_guard_iff_entry_file (importMetaUrl argv1 : List Char) :
    guardRuns importMetaUrl argv1 = true ↔
      isDesignatedEntryFile importMetaUrl argv1 = true := by
  unfold guardRuns isDesignatedEntryFile fileURLToPath
  constructor
  · intro h
    rw [beq_iff_eq] at h
    subst h
    have hlen : fileScheme.length = 7 := rfl
    have h1 : (fileScheme ++ argv1).take 7 = fileScheme := by
      rw [← hlen]
      exact List.take_left fileScheme argv1
    have h2 : (fileScheme ++ argv1).drop 7 = argv1 := by
      rw [← hlen]
      exact List.drop_left fileScheme argv1
    rw [if_pos h1, h2]
    simp
  · intro h
    rw [beq_iff_eq]
    by_cases hp : importMetaUrl.take 7 = fileScheme
    · rw [if_pos hp] at h
      have hd : importMetaUrl.drop 7 = argv1 := by simpa using h
      calc importMetaUrl
          = importMetaUrl.take 7 ++ importMetaUrl.drop 7 :=
            (List.take_append_drop 7 importMetaUrl).symm
        _ = fileScheme ++ argv1 := by rw [hp, hd]
    · rw [if_neg hp] at h
      simp at h

theorem c6_cli_guard_iff_entry_file_witness :
    guardRuns ("file:///srv/agent.ts".toList) ("/srv/agent.ts".toList) = true ∧
    guardRuns ("file:///srv/agent.ts".toList) ("/srv/other.ts".toList) = false :=
  ⟨(c6_cli_guard_iff_entry_file ("file:///srv/agent.ts".toList)
      ("/srv/agent.ts".toList)).mpr (by decide),
   by decide⟩

end VoiceAgent
